import Mathlib

/-!
Verification of the avatar backend (src/backend/server.js) against its
natural-language specification.  The server is a thin orchestration layer:
a chat endpoint that validates a message, calls a language-model
collaborator, calls a speech-synthesis collaborator (collecting viseme
events), persists the audio to a uniquely named file and answers with the
composed result; plus an audio-delivery endpoint that streams a stored
file once and deletes it.

The two external collaborators (OpenAI and Azure Speech) are oracles: each
request carries their outcome as explicit data (`LLMOutcome`,
`SynthSession`), and the handlers below are direct translations of the
JavaScript control flow around those outcomes.
-/

/-- JavaScript values that can appear in the request body's `message` field
(`req.body` is parsed JSON, so `message` may be absent, `null`, a boolean,
a number, a string, an object or an array; `nan` stands for the numeric
NaN value, which is falsy). -/
inductive JSValue where
  | undef
  | null
  | jsBool (b : Bool)
  | num (q : ℚ)
  | nan
  | str (s : String)
  | obj
  | arr
deriving DecidableEq, Repr

/-- JavaScript truthiness, as tested by `if (!message)` in server.js:152:
`undefined`, `null`, `false`, `0`, `NaN` and `""` are falsy; every other
value is truthy. -/
def truthy : JSValue → Bool
  | .undef => false
  | .null => false
  | .jsBool b => b
  | .num q => q != 0
  | .nan => false
  | .str s => s != ""
  | .obj => true
  | .arr => true

/-- The environment-sourced configuration read at startup
(server.js:41-48): `process.env` yields `undefined` (here `none`) for an
unset variable, or the string value. -/
structure EnvVars where
  OPENAI_API_KEY : Option String
  AZURE_SPEECH_KEY : Option String
  AZURE_SPEECH_REGION : Option String
  AZURE_VOICE_NAME : Option String
deriving DecidableEq, Repr

/-- JavaScript truthiness of an environment variable value: unset
(`undefined`) and the empty string are falsy. -/
def envTruthy : Option String → Bool
  | none => false
  | some s => s != ""

/-- The startup guard of server.js:50-52: the module throws (so the
process refuses to start) iff one of the three Azure variables is falsy.
`OPENAI_API_KEY` is read at server.js:42 but never tested by this check. -/
def startupCheck (env : EnvVars) : Except String Unit :=
  if !envTruthy env.AZURE_SPEECH_KEY || !envTruthy env.AZURE_SPEECH_REGION
      || !envTruthy env.AZURE_VOICE_NAME then
    Except.error "Azure Speech service environment variables are not defined."
  else
    Except.ok ()

/-- The SSML template of `buildSSML` (server.js:89-103), transcribed
chunk for chunk: the template literal has three interpolation points
(voice name, style, message), so it is the concatenation of four literal
chunks around them.  `AZURE_VOICE_NAME` is passed explicitly here instead
of being read from the module-level constant. -/
def buildSSML (voiceName message style : String) : String :=
  "<speak version=\"1.0\"\n  xmlns=\"http://www.w3.org/2001/10/synthesis\"\n  xmlns:mstts=\"https://www.w3.org/2001/mstts\"\n  xml:lang=\"en-US\">\n  <voice name=\""
    ++ voiceName
    ++ "\">\n      <mstts:viseme type=\"redlips_front\"/>\n      <mstts:express-as style=\""
    ++ style
    ++ "\">\n          "
    ++ message
    ++ "\n      </mstts:express-as>\n      <mstts:viseme type=\"sil\"/>\n      <mstts:viseme type=\"sil\"/>\n  </voice>\n  </speak>"

/-- The opening mouth-shape calibration marker appearing in the template. -/
def openingCalibrationMarker : String := "<mstts:viseme type=\"redlips_front\"/>"

/-- The closing (silence) calibration marker appearing twice in the template. -/
def closingCalibrationMarker : String := "<mstts:viseme type=\"sil\"/>"

/-- The fixed SSML document header up to (excluding) the voice wrapper. -/
def ssmlDocHeader : String :=
  "<speak version=\"1.0\"\n  xmlns=\"http://www.w3.org/2001/10/synthesis\"\n  xmlns:mstts=\"https://www.w3.org/2001/mstts\"\n  xml:lang=\"en-US\">"

/-- The opening tag of the voice-selection wrapper. -/
def voiceOpenTag (voiceName : String) : String :=
  "<voice name=\"" ++ voiceName ++ "\">"

/-- The style-scoped span: an `express-as` element carrying the style tag
and containing the literal reply text (with the template's surrounding
indentation). -/
def styleSpan (style message : String) : String :=
  "<mstts:express-as style=\"" ++ style ++ "\">\n          " ++ message
    ++ "\n      </mstts:express-as>"

/-- The fixed tail of the document: end of the voice wrapper and of the
speak element. -/
def ssmlDocFooter : String := "\n  </voice>\n  </speak>"

/-- A raw viseme notification from the speech collaborator
(server.js:120-125): `e.audioOffset` is a non-negative integer count of
the collaborator's fine-grained time unit, `e.visemeId` an integer mouth
shape id. -/
structure RawViseme where
  audioOffset : ℕ
  visemeId : ℤ
deriving DecidableEq, Repr

/-- A collected viseme event (the object pushed onto `visemes`): the
offset is a JavaScript number, modelled exactly as a rational. -/
structure VisemeEvent where
  offset : ℚ
  id : ℤ
deriving DecidableEq, Repr

/-- The entry pushed by the `synthesizer.visemeReceived` listener
(server.js:120-125): `offset: e.audioOffset / 10000` — JavaScript numeric
division, modelled exactly over ℚ — and `id: e.visemeId`. -/
def visemeOf (e : RawViseme) : VisemeEvent :=
  { offset := (e.audioOffset : ℚ) / 10000, id := e.visemeId }

/-- Terminal outcome of one synthesis session, as seen by the
`speakSsmlAsync` callbacks (server.js:127-143): the success callback with
reason `SynthesizingAudioCompleted` (carrying the audio bytes), the
success callback with any other reason, or the error callback. -/
inductive SynthOutcome where
  | completed (audioData : List ℕ)
  | otherReason
  | error
deriving DecidableEq, Repr

/-- One synthesis session as an oracle: the viseme notifications delivered
during the session (in emission order) and the terminal outcome. -/
structure SynthSession where
  events : List RawViseme
  outcome : SynthOutcome
deriving DecidableEq, Repr

/-- Observable actions taken by the `speakSsmlAsync` callbacks on the
synthesizer resource and the promise. -/
inductive SynthAction where
  | close
  | resolve
  | reject
deriving DecidableEq, Repr

/-- The outcome of one run of `textToSpeech`: the SSML document sent to
the collaborator, the ordered actions taken by the callbacks, and the
promise result. -/
structure SynthRun where
  ssmlSent : String
  actions : List SynthAction
  result : Except String (List ℕ × List VisemeEvent)
deriving Repr

/-- Translation of `textToSpeech` (server.js:106-145): builds the SSML,
collects one `VisemeEvent` per notification via `visemeOf`, and on the
terminal callback closes the synthesizer and then resolves (on
`SynthesizingAudioCompleted`, with the audio bytes and the collected
visemes) or rejects (on any other reason, with the error
`Speech synthesis failed.`, or on the error callback). -/
def textToSpeech (voiceName message style : String) (sess : SynthSession) : SynthRun :=
  let ssml := buildSSML voiceName message style
  match sess.outcome with
  | .completed audioData =>
      { ssmlSent := ssml
        actions := [.close, .resolve]
        result := .ok (audioData, sess.events.map visemeOf) }
  | .otherReason =>
      { ssmlSent := ssml
        actions := [.close, .reject]
        result := .error "Speech synthesis failed." }
  | .error =>
      { ssmlSent := ssml
        actions := [.close, .reject]
        result := .error "speech collaborator error" }

/-- Outcome of the OpenAI call (server.js:160-195) as an oracle: either a
schema-conforming parsed reply (message, style, reasoning), or a failure
(unreachable collaborator, schema violation or parse error), which the
handler's try/catch turns into a 500. -/
inductive LLMOutcome where
  | ok (message style reasoning : String)
  | failure
deriving DecidableEq, Repr

/-- Per-request environment of the chat handler: the configured voice
name, the language-model oracle, the speech-session oracle and the random
identifier that `uuidv4()` returns for this request. -/
structure ChatEnv where
  voiceName : String
  llm : LLMOutcome
  synth : SynthSession
  uuid : String
deriving Repr

/-- The JSON body of a successful chat response (server.js:216-222). -/
structure ChatResponse where
  response : String
  style : String
  reasoning : String
  audio : String
  visemes : List VisemeEvent
deriving DecidableEq, Repr

/-- Observable result of one chat request: HTTP status, success body,
the message forwarded to the language-model collaborator (if it was
invoked at all), and the files written to disk. -/
structure ChatResult where
  status : ℕ
  body : Option ChatResponse
  llmCalled : Option JSValue
  filesWritten : List (String × List ℕ)
deriving Repr

/-- Translation of the `POST /api/chat` handler (server.js:148-234),
behind the rate limiter: reject with 400 if `!message`; otherwise forward
the message as-is to the language-model collaborator; on its success run
`textToSpeech` on the reply and style; on synthesis success write the
audio to `response_<uuid>.mp3` and answer 200 with the composed body; any
failure is caught and answered with 500, writing nothing. -/
def chatHandler (message : JSValue) (env : ChatEnv) : ChatResult :=
  if !truthy message then
    { status := 400, body := none, llmCalled := none, filesWritten := [] }
  else
    match env.llm with
    | .failure =>
        { status := 500, body := none, llmCalled := some message, filesWritten := [] }
    | .ok reply style reasoning =>
        match (textToSpeech env.voiceName reply style env.synth).result with
        | .error _ =>
            { status := 500, body := none, llmCalled := some message, filesWritten := [] }
        | .ok (audioData, vis) =>
            { status := 200
              body := some { response := reply, style := style, reasoning := reasoning,
                             audio := "response_" ++ env.uuid ++ ".mp3", visemes := vis }
              llmCalled := some message
              filesWritten := [("response_" ++ env.uuid ++ ".mp3", audioData)] }

/-- The server directory's file namespace: an association list from
filename to file bytes (at most one entry per name in any state the
server produces, but no lemma below assumes that). -/
abbrev FS := List (String × List ℕ)

/-- File existence / content lookup, as `fs.access` + the read stream see it. -/
def lookupFile (name : String) : FS → Option (List ℕ)
  | [] => none
  | entry :: rest => if entry.1 = name then some entry.2 else lookupFile name rest

/-- Deletion by `fs.unlink`: removes every entry with the given name. -/
def deleteFile (name : String) (fs : FS) : FS :=
  fs.filter (fun entry => entry.1 != name)

/-- Observable result of one `GET /api/audio/:filename` request. -/
structure AudioGetResult where
  status : ℕ
  headers : List (String × String)
  body : Option (List ℕ)
deriving DecidableEq, Repr

/-- Translation of the `GET /api/audio/:filename` handler
(server.js:237-261) as a state transformer on the directory: if the file
at `path.join(__dirname, filename)` does not exist, 404 and the directory
is unchanged; otherwise set the audio/attachment headers, stream the
bytes, and delete the file once the response has finished.  No check of
any kind is made on the filename itself. -/
def audioGet (fs : FS) (filename : String) : AudioGetResult × FS :=
  match lookupFile filename fs with
  | none =>
      ({ status := 404, headers := [], body := none }, fs)
  | some bytes =>
      ({ status := 200
         headers := [("Content-Type", "audio/mpeg"),
                     ("Content-Disposition", "attachment; filename=" ++ filename)]
         body := some bytes },
       deleteFile filename fs)

/-- Auxiliary character scanner for `sanitizeMessage`: drops markup tags
(the flag records whether the scan is inside a tag). -/
def stripTagsAux : Bool → List Char → List Char
  | _, [] => []
  | true, c :: cs => if c = '>' then stripTagsAux false cs else stripTagsAux true cs
  | false, c :: cs => if c = '<' then stripTagsAux true cs else c :: stripTagsAux false cs

/-- Modelled from the spec: the HTML/script sanitization guard (the
`sanitize-html` collaborator, imported at server.js:9 but — as proved
below — never invoked by the handler).  The spec requires neutralizing
HTML/script content without altering the semantic meaning of the text;
modelled as stripping markup tags while keeping the text content. -/
def sanitizeMessage (s : String) : String :=
  ⟨stripTagsAux false s.data⟩

/-- Concrete fixture: an environment whose collaborators both succeed. -/
def envOk : ChatEnv :=
  { voiceName := "en-US-AvaNeural"
    llm := .ok "Hello there!" "cheerful" "greeting"
    synth := { events := [{ audioOffset := 0, visemeId := 0 }],
               outcome := .completed [1, 2, 3] }
    uuid := "123e4567" }

/-- Concrete fixture: the language model succeeds but the speech
collaborator terminates with a non-success reason. -/
def envSynthFail : ChatEnv :=
  { voiceName := "en-US-AvaNeural"
    llm := .ok "Sorry." "sad" "empathy"
    synth := { events := [{ audioOffset := 10000, visemeId := 2 }],
               outcome := .otherReason }
    uuid := "deadbeef" }

/-- Concrete fixture: a directory holding one chat-created artifact. -/
def fsOneArtifact : FS := [("response_123e4567.mp3", [7, 8, 9])]

/-- Concrete fixture: a directory holding a file that does not match the
`response_<uuid>.mp3` artifact pattern. -/
def fsNonArtifact : FS := [("server.js", [104, 101])]

/-- Concrete fixture: all Azure variables set, the OpenAI credential unset. -/
def envMissingOpenAIKey : EnvVars :=
  { OPENAI_API_KEY := none
    AZURE_SPEECH_KEY := some "key"
    AZURE_SPEECH_REGION := some "westus"
    AZURE_VOICE_NAME := some "en-US-AvaNeural" }

/-- Helper: a falsy message short-circuits the handler into the 400 result. -/
lemma chatHandler_not_truthy (v : JSValue) (env : ChatEnv) (hv : truthy v = false) :
    chatHandler v env =
      { status := 400, body := none, llmCalled := none, filesWritten := [] } := by
  simp [chatHandler, hv]

/-- Helper: a truthy message is always forwarded verbatim to the
language-model collaborator. -/
lemma chatHandler_truthy_llmCalled (v : JSValue) (env : ChatEnv) (hv : truthy v = true) :
    (chatHandler v env).llmCalled = some v := by
  rcases env with ⟨voice, llm, ⟨events, outcome⟩, u⟩
  cases llm with
  | failure => simp [chatHandler, hv]
  | ok r s rs => cases outcome <;> simp [chatHandler, hv, textToSpeech]

/-- Helper: a truthy message never produces a 400 response. -/
lemma chatHandler_truthy_status_ne_400 (v : JSValue) (env : ChatEnv) (hv : truthy v = true) :
    (chatHandler v env).status ≠ 400 := by
  rcases env with ⟨voice, llm, ⟨events, outcome⟩, u⟩
  cases llm with
  | failure => simp [chatHandler, hv]
  | ok r s rs => cases outcome <;> simp [chatHandler, hv, textToSpeech]

/-- Helper: looking up a name after deleting it finds nothing. -/
lemma lookupFile_deleteFile (name : String) (fs : FS) :
    lookupFile name (deleteFile name fs) = none := by
  induction fs with
  | nil => rfl
  | cons e rest ih =>
      simp only [deleteFile, List.filter_cons] at *
      by_cases h : e.1 = name
      · simp [h, ih]
      · simp [lookupFile, h, ih]

/-- Claim C10: the chat endpoint's validation rejects with 400 exactly
when the body's `message` field is absent or JavaScript-falsy; every
truthy value of any type (numbers, objects, arrays, whitespace-only
strings, ...) passes validation and is forwarded verbatim to the
language-model collaborator. -/
theorem C10_validation_is_truthiness (v : JSValue) (env : ChatEnv) :
    ((chatHandler v env).status = 400 ↔ truthy v = false) ∧
    ((chatHandler v env).llmCalled = some v ↔ truthy v = true) := by
  cases hv : truthy v with
  | false => simp [chatHandler_not_truthy v env hv]
  | true =>
      have h1 := chatHandler_truthy_status_ne_400 v env hv
      have h2 := chatHandler_truthy_llmCalled v env hv
      simp [h1, h2]

/-- Claim C2 (amended): a chat request with the empty-string message is
answered 400 and the language-model collaborator is never invoked; but a
whitespace-only non-empty message is NOT rejected — it passes the
truthiness guard and the collaborator is invoked.  Formally: the handler
answers 400, and leaves the collaborator uninvoked, exactly when the
string message is empty. -/
theorem C2_amended_empty_only_rejected (s : String) (env : ChatEnv) :
    ((chatHandler (JSValue.str s) env).status = 400 ↔ s = "") ∧
    ((chatHandler (JSValue.str s) env).llmCalled = none ↔ s = "") := by
  by_cases hs : s = ""
  · subst hs
    rw [chatHandler_not_truthy _ _ (by decide)]
    simp
  · have hv : truthy (JSValue.str s) = true := by simp [truthy, hs]
    have h1 := chatHandler_truthy_status_ne_400 _ env hv
    have h2 := chatHandler_truthy_llmCalled _ env hv
    simp [h1, h2, hs]

/-- Claim C2 (counterexample): the whitespace-only message consisting of a
single space is not answered 400; the language-model collaborator is
invoked for it (here under an all-success environment, the request even
succeeds with 200). -/
theorem C2_counterexample_whitespace_reaches_llm :
    (chatHandler (JSValue.str " ") envOk).status = 200 ∧
    (chatHandler (JSValue.str " ") envOk).llmCalled = some (JSValue.str " ") :=
  ⟨rfl, rfl⟩

/-- Claim C1 (amended): for every chat request that passes validation, the
message the handler forwards to the language-model collaborator is exactly
the raw request message — no sanitization of HTML/script content is
applied anywhere on the path (the `sanitize-html` import is never used). -/
theorem C1_amended_raw_message_forwarded (m : String) (env : ChatEnv) (h : m ≠ "") :
    (chatHandler (JSValue.str m) env).llmCalled = some (JSValue.str m) :=
  chatHandler_truthy_llmCalled _ _ (by simp [truthy, h])

/-- Claim C1 (witness): instantiation of the amended claim at a concrete
message. -/
theorem C1_amended_witness :
    ("hello" : String) ≠ "" ∧
    (chatHandler (JSValue.str "hello") envOk).llmCalled = some (JSValue.str "hello") :=
  ⟨by decide, C1_amended_raw_message_forwarded "hello" envOk (by decide)⟩

/-- Claim C1 (counterexample): for the request message
`<script>alert(1)</script>` the handler forwards the raw text itself to
the language-model collaborator, while the sanitized form of that text
differs from it — so the forwarded message is the raw unsanitized text,
not the sanitized form. -/
theorem C1_counterexample_unsanitized_forwarded :
    (chatHandler (JSValue.str "<script>alert(1)</script>") envOk).llmCalled =
      some (JSValue.str "<script>alert(1)</script>") ∧
    sanitizeMessage "<script>alert(1)</script>" ≠ "<script>alert(1)</script>" :=
  ⟨rfl, by decide⟩

/-- Claim C3 (amended): a successful synthesis session resolves with one
`VisemeEvent` per notification, in order, whose offset is the raw offset
divided by 10000 as exact numeric division (JavaScript `/`, not integer
division); every offset is non-negative, and it is an integer exactly when
the raw offset is a multiple of 10000. -/
theorem C3_amended_offsets_exact_division (voice m s : String)
    (events : List RawViseme) (audioData : List ℕ) :
    (textToSpeech voice m s
        { events := events, outcome := SynthOutcome.completed audioData }).result =
      Except.ok (audioData, events.map visemeOf) ∧
    ∀ e ∈ events,
      (visemeOf e).offset = (e.audioOffset : ℚ) / 10000 ∧
      0 ≤ (visemeOf e).offset ∧
      ((∃ n : ℤ, (visemeOf e).offset = (n : ℚ)) ↔ 10000 ∣ e.audioOffset) := by
  refine ⟨rfl, ?_⟩
  intro e _
  refine ⟨rfl, by simp only [visemeOf]; positivity, ?_⟩
  constructor
  · rintro ⟨n, hn⟩
    have h1 : (e.audioOffset : ℚ) = n * 10000 := by
      rw [visemeOf] at hn
      field_simp at hn
      linarith
    have h2 : (e.audioOffset : ℤ) = n * 10000 := by exact_mod_cast h1
    have h3 : (10000 : ℤ) ∣ (e.audioOffset : ℤ) := ⟨n, by linarith⟩
    exact_mod_cast h3
  · rintro ⟨k, hk⟩
    refine ⟨k, ?_⟩
    rw [visemeOf]
    rw [hk]
    push_cast
    ring

/-- Claim C3 (witness): instantiation of the amended claim at a session
with a single notification whose raw offset is 20000. -/
theorem C3_amended_offsets_witness :
    ((textToSpeech "v" "hi" "cheerful"
        { events := [⟨20000, 1⟩], outcome := SynthOutcome.completed [9] }).result =
      Except.ok ([9], [visemeOf ⟨20000, 1⟩]) ∧
     (⟨20000, 1⟩ : RawViseme) ∈ [(⟨20000, 1⟩ : RawViseme)] ∧
     ((visemeOf ⟨20000, 1⟩).offset = ((20000 : ℕ) : ℚ) / 10000 ∧
      0 ≤ (visemeOf (⟨20000, 1⟩ : RawViseme)).offset ∧
      ((∃ n : ℤ, (visemeOf (⟨20000, 1⟩ : RawViseme)).offset = (n : ℚ)) ↔
        10000 ∣ (20000 : ℕ)))) :=
  ⟨(C3_amended_offsets_exact_division "v" "hi" "cheerful" [⟨20000, 1⟩] [9]).1,
   List.mem_singleton.mpr rfl,
   (C3_amended_offsets_exact_division "v" "hi" "cheerful" [⟨20000, 1⟩] [9]).2
     ⟨20000, 1⟩ (List.mem_singleton.mpr rfl)⟩

/-- Claim C3 (counterexample): the viseme notification with raw offset
5000 is appended with offset 1/2 — not an integer, and not the value 0
that fixed integer division of 5000 by 10000 would give.  So offsets are
not obtained by integer division and are not all integers. -/
theorem C3_counterexample_fractional_offset :
    (visemeOf { audioOffset := 5000, visemeId := 3 }).offset = 1 / 2 ∧
    (¬ ∃ n : ℤ, (visemeOf { audioOffset := 5000, visemeId := 3 }).offset = (n : ℚ)) ∧
    (visemeOf { audioOffset := 5000, visemeId := 3 }).offset ≠ ((5000 / 10000 : ℕ) : ℚ) := by
  refine ⟨by norm_num [visemeOf], ?_, by norm_num [visemeOf]⟩
  rintro ⟨n, hn⟩
  rw [show (visemeOf { audioOffset := 5000, visemeId := 3 }).offset = (1 / 2 : ℚ) from by
    norm_num [visemeOf]] at hn
  have h2 : (2 * n : ℚ) = 1 := by linarith
  have h3 : (2 * n : ℤ) = 1 := by exact_mod_cast h2
  omega

/-- Claim C5: when the speech collaborator reports a failure or a
non-success completion, the chat endpoint answers 500, writes no audio
file, and produces no success body — the previously obtained reply text is
not persisted anywhere observable. -/
theorem C5_synthesis_failure_discards (v : JSValue) (env : ChatEnv)
    (r st rs : String)
    (hv : truthy v = true) (hllm : env.llm = LLMOutcome.ok r st rs)
    (hfail : env.synth.outcome = SynthOutcome.otherReason ∨
             env.synth.outcome = SynthOutcome.error) :
    (chatHandler v env).status = 500 ∧
    (chatHandler v env).filesWritten = [] ∧
    (chatHandler v env).body = none := by
  rcases hfail with h | h <;> simp [chatHandler, hv, hllm, textToSpeech, h]

/-- Claim C5 (witness): instantiation at a concrete request whose speech
session ends with a non-success completion reason. -/
theorem C5_synthesis_failure_witness :
    truthy (JSValue.str "hi") = true ∧
    envSynthFail.llm = LLMOutcome.ok "Sorry." "sad" "empathy" ∧
    (envSynthFail.synth.outcome = SynthOutcome.otherReason ∨
     envSynthFail.synth.outcome = SynthOutcome.error) ∧
    ((chatHandler (JSValue.str "hi") envSynthFail).status = 500 ∧
     (chatHandler (JSValue.str "hi") envSynthFail).filesWritten = [] ∧
     (chatHandler (JSValue.str "hi") envSynthFail).body = none) :=
  ⟨by decide, rfl, Or.inl rfl,
   C5_synthesis_failure_discards (JSValue.str "hi") envSynthFail "Sorry." "sad" "empathy"
     (by decide) rfl (Or.inl rfl)⟩

/-- Claim C6: on every exit path of a synthesis session — successful
completion, non-success completion reason, and collaborator-reported
error — the synthesizer is closed, exactly once, before the promise is
resolved or rejected; the terminal action is a resolve exactly when the
run succeeded. -/
theorem C6_session_closed_on_every_path (voice m s : String) (sess : SynthSession) :
    ∃ t, (textToSpeech voice m s sess).actions = [SynthAction.close, t] ∧
      t ≠ SynthAction.close ∧
      ((∃ v, (textToSpeech voice m s sess).result = Except.ok v) ↔
        t = SynthAction.resolve) := by
  rcases sess with ⟨events, outcome⟩
  cases outcome with
  | completed audioData =>
      exact ⟨SynthAction.resolve, rfl, by decide, by simp [textToSpeech]⟩
  | otherReason =>
      exact ⟨SynthAction.reject, rfl, by decide, by simp [textToSpeech]⟩
  | error =>
      exact ⟨SynthAction.reject, rfl, by decide, by simp [textToSpeech]⟩

/-- Claim C4: for a filename holding an artifact, fetching
`GET /api/audio/:filename` twice in sequence yields 200 with the audio
bytes first and 404 second; the artifact is deleted by the first
successful stream, so it is never delivered twice. -/
theorem C4_at_most_once_delivery (fs : FS) (name : String) (bytes : List ℕ)
    (h : lookupFile name fs = some bytes) :
    ((audioGet fs name).1.status = 200 ∧ (audioGet fs name).1.body = some bytes) ∧
    ((audioGet (audioGet fs name).2 name).1.status = 404 ∧
     (audioGet (audioGet fs name).2 name).1.body = none) ∧
    lookupFile name (audioGet fs name).2 = none := by
  simp [audioGet, h, lookupFile_deleteFile]

/-- Claim C4 (witness): instantiation at a directory holding one
chat-created artifact. -/
theorem C4_at_most_once_delivery_witness :
    lookupFile "response_123e4567.mp3" fsOneArtifact = some [7, 8, 9] ∧
    (((audioGet fsOneArtifact "response_123e4567.mp3").1.status = 200 ∧
      (audioGet fsOneArtifact "response_123e4567.mp3").1.body = some [7, 8, 9]) ∧
     ((audioGet (audioGet fsOneArtifact "response_123e4567.mp3").2
          "response_123e4567.mp3").1.status = 404 ∧
      (audioGet (audioGet fsOneArtifact "response_123e4567.mp3").2
          "response_123e4567.mp3").1.body = none) ∧
     lookupFile "response_123e4567.mp3"
        (audioGet fsOneArtifact "response_123e4567.mp3").2 = none) :=
  ⟨rfl, C4_at_most_once_delivery fsOneArtifact "response_123e4567.mp3" [7, 8, 9] rfl⟩

/-- Claim C9: the audio endpoint streams (as `audio/mpeg` with attachment
disposition) and then deletes ANY file that exists under the joined path —
the filename is not required to match the `response_<uuid>.mp3` artifact
pattern nor to have been created by the chat flow; the only test performed
is existence. -/
theorem C9_serves_and_deletes_any_existing (fs : FS) (filename : String) (bytes : List ℕ)
    (h : lookupFile filename fs = some bytes) :
    (audioGet fs filename).1 =
      { status := 200
        headers := [("Content-Type", "audio/mpeg"),
                    ("Content-Disposition", "attachment; filename=" ++ filename)]
        body := some bytes } ∧
    (audioGet fs filename).2 = deleteFile filename fs := by
  simp [audioGet, h]

/-- Claim C9 (witness): instantiation at a file (`server.js`) that does
not match the artifact pattern and was not created by the chat flow: it is
served and deleted all the same. -/
theorem C9_serves_and_deletes_witness :
    lookupFile "server.js" fsNonArtifact = some [104, 101] ∧
    ((audioGet fsNonArtifact "server.js").1 =
      { status := 200
        headers := [("Content-Type", "audio/mpeg"),
                    ("Content-Disposition", "attachment; filename=" ++ "server.js")]
        body := some [104, 101] } ∧
     (audioGet fsNonArtifact "server.js").2 = deleteFile "server.js" fsNonArtifact) :=
  ⟨rfl, C9_serves_and_deletes_any_existing fsNonArtifact "server.js" [104, 101] rfl⟩

set_option maxRecDepth 100000 in
/-- Claim C7: for every reply text and style tag (and configured voice
name), `buildSSML` always returns the markup document consisting of the
voice-selection wrapper containing, in this order: one opening calibration
marker, the style-scoped span holding the literal reply text, and two
closing calibration markers.  Being a total Lean function of its
arguments, it is pure and side-effect-free and has no error path. -/
theorem C7_buildSSML_structure (voice m s : String) :
    buildSSML voice m s =
      ssmlDocHeader ++ "\n  " ++ voiceOpenTag voice ++ "\n      "
        ++ openingCalibrationMarker ++ "\n      "
        ++ styleSpan s m ++ "\n      "
        ++ closingCalibrationMarker ++ "\n      "
        ++ closingCalibrationMarker
        ++ ssmlDocFooter := by
  simp only [buildSSML, ssmlDocHeader, voiceOpenTag, openingCalibrationMarker, styleSpan,
    closingCalibrationMarker, ssmlDocFooter, String.append_assoc]
  rfl

/-- Claim C8 (amended): the startup validation covers exactly the three
speech-service values (credential, region, voice name): the process starts
iff all three are present and non-empty.  The language-model credential is
not part of the check — replacing it by anything, including an absent
value, leaves the check's outcome unchanged. -/
theorem C8_amended_startup_validates_speech_vars (env : EnvVars) :
    (startupCheck env = Except.ok () ↔
      (envTruthy env.AZURE_SPEECH_KEY = true ∧
       envTruthy env.AZURE_SPEECH_REGION = true ∧
       envTruthy env.AZURE_VOICE_NAME = true)) ∧
    ∀ k : Option String, startupCheck { env with OPENAI_API_KEY := k } = startupCheck env := by
  constructor
  · unfold startupCheck
    cases h1 : envTruthy env.AZURE_SPEECH_KEY <;>
      cases h2 : envTruthy env.AZURE_SPEECH_REGION <;>
        cases h3 : envTruthy env.AZURE_VOICE_NAME <;>
          simp [h1, h2, h3]
  · intro k
    rfl

/-- Claim C8 (counterexample): with the three Azure variables set but the
OpenAI credential absent, the startup check passes — the process does not
refuse to start, contradicting the claim that each of the four values is
validated at startup. -/
theorem C8_counterexample_openai_key_unchecked :
    envMissingOpenAIKey.OPENAI_API_KEY = none ∧
    startupCheck envMissingOpenAIKey = Except.ok () :=
  ⟨rfl, rfl⟩
